import Mathlib

/-!
Verification of the gene-identifier translation utility of the django-genes
application, following spec.md.  The repository ships the test suite
(genes/tests.py) and the search-index wrapper (genes/search_indexes.py); the
translator itself (genes/utils.py) and the model declarations (genes/models.py)
are not part of the sources, so the data model and `translate_genes` are
modelled from the spec (sections 3, 4.1, 6, 7) and validated against the
expectations recorded in genes/tests.py.
-/

/-- Organism record, from spec section 3: taxonomy id, common name,
scientific name, slug. -/
structure Organism where
  taxonomy_id : Nat
  common_name : String
  scientific_name : String
  slug : String
deriving DecidableEq, Repr

/-- Gene record, from spec section 3: entrez identifier, systematic name,
standard name (both optional strings), organism reference (embedded here,
standing for the foreign key), description, aliases, weight.  `pk` is the
relational primary key that CrossRef rows reference. -/
structure Gene where
  pk : Nat
  entrezid : Nat
  systematic_name : Option String
  standard_name : Option String
  description : String
  organism : Organism
  aliases : String
  weight : Int
deriving DecidableEq, Repr

/-- CrossRefDB record, from spec section 3: an external identifier namespace
with a name and a URL. -/
structure CrossRefDB where
  name : String
  url : String
deriving DecidableEq, Repr

/-- CrossRef record, from spec section 3: a link between a Gene (by primary
key) and a CrossRefDB (by name), carrying an external identifier `xrid`. -/
structure CrossRef where
  crossrefdb : String
  gene : Nat
  xrid : String
deriving DecidableEq, Repr

/-- The relational store the translator queries: organisms, genes,
cross-references and cross-reference namespaces. -/
structure Store where
  organisms : List Organism
  genes : List Gene
  crossrefs : List CrossRef
  crossrefdbs : List CrossRefDB
deriving DecidableEq, Repr

/-- A string is blank when it is empty or consists of whitespace only
(mirrors the `not name.isspace()` test in genes/search_indexes.py,
with the empty string counted as blank because it is falsy in Python). -/
def isBlank (s : String) : Bool :=
  s.data.all Char.isWhitespace

/-- Symbol of a gene, from spec sections 3 and 4.1: the standard name if it
is present and non-blank, else the systematic name (empty string when the
gene has neither). -/
def Gene.symbol (g : Gene) : String :=
  let std := g.standard_name.getD ""
  if isBlank std then g.systematic_name.getD "" else std

/-- Embedding of `GeneIndex.prepare_name_length` from genes/search_indexes.py:
length of the standard name when present and non-blank, else of the
systematic name; `none` models the `len(None)` failure when the fallback
systematic name is missing. -/
def prepare_name_length (g : Gene) : Option Nat :=
  match g.standard_name with
  | some s =>
    if isBlank s then (g.systematic_name.map String.length)
    else some s.length
  | none => g.systematic_name.map String.length

/-- An identifier flowing through the translator: Entrez identifiers are
integers, every other namespace uses strings (spec section 4.1). -/
inductive IdVal where
  | int : Nat → IdVal
  | str : String → IdVal
deriving DecidableEq, Repr

/-- Configuration error raised for an unknown namespace tag
(spec sections 4.1 and 7). -/
inductive ConfigError where
  | unknownNamespace : String → ConfigError
deriving DecidableEq, Repr

deriving instance DecidableEq for Except

/-- Result of a translation: the mapping from input identifiers to ordered
lists of target values, in input order, together with the `not_found`
list (spec section 4.1). -/
structure TransResult where
  found : List (IdVal × List IdVal)
  not_found : List IdVal
deriving DecidableEq, Repr

/-- The four built-in namespace tags; any other tag is looked up among the
registered CrossRefDB names (spec section 4.1). -/
def builtinTags : List String :=
  ["Entrez", "Symbol", "Standard name", "Systematic name"]

/-- A namespace tag is valid when it is one of the built-in tags or the name
of a registered CrossRefDB (spec section 4.1). -/
def validTag (st : Store) (tag : String) : Bool :=
  decide (tag ∈ builtinTags ∨ tag ∈ st.crossrefdbs.map CrossRefDB.name)

/-- Modelled from the spec: the organism filter of `translate_genes`
(genes/utils.py is not in the sources).  When given, only genes of the
organism with that scientific name are considered. -/
def orgFilter (organism : Option String) (g : Gene) : Bool :=
  match organism with
  | none => true
  | some o => g.organism.scientific_name == o

/-- Modelled from the spec: exact-match filtering of genes on the source
namespace (spec section 4.1).  The built-in tags match the corresponding
field; any other tag is a CrossRefDB name and matches genes having a
cross-reference with that namespace and xrid. -/
def matchesFrom (st : Store) (from_id : String) (id : IdVal) (g : Gene) : Bool :=
  if from_id = "Entrez" then
    match id with
    | IdVal.int n => g.entrezid == n
    | IdVal.str _ => false
  else if from_id = "Symbol" then
    match id with
    | IdVal.str s => g.symbol == s
    | IdVal.int _ => false
  else if from_id = "Standard name" then
    match id with
    | IdVal.str s => g.standard_name == some s
    | IdVal.int _ => false
  else if from_id = "Systematic name" then
    match id with
    | IdVal.str s => g.systematic_name == some s
    | IdVal.int _ => false
  else
    match id with
    | IdVal.str x =>
      st.crossrefs.any (fun r0 =>
        r0.crossrefdb == from_id && r0.gene == g.pk && r0.xrid == x)
    | IdVal.int _ => false

/-- Modelled from the spec: derivation of the target-namespace values of one
matched gene (spec section 4.1): the integer identifier for Entrez, the
respective string field for the name tags, the symbol for Symbol, and the
xrid values under the named CrossRefDB otherwise. -/
def toValues (st : Store) (to_id : String) (g : Gene) : List IdVal :=
  if to_id = "Entrez" then [IdVal.int g.entrezid]
  else if to_id = "Symbol" then [IdVal.str g.symbol]
  else if to_id = "Standard name" then [IdVal.str (g.standard_name.getD "")]
  else if to_id = "Systematic name" then [IdVal.str (g.systematic_name.getD "")]
  else
    (st.crossrefs.filter (fun r0 =>
      r0.crossrefdb == to_id && r0.gene == g.pk)).map (fun r0 => IdVal.str r0.xrid)

/-- Modelled from the spec: all target values derived for one input
identifier, in store order: every gene passing the organism filter and the
source-namespace match contributes its target values. -/
def resolve (st : Store) (from_id to_id : String) (organism : Option String)
    (id : IdVal) : List IdVal :=
  ((st.genes.filter (fun g =>
    orgFilter organism g && matchesFrom st from_id id g)).map (toValues st to_id)).flatten

/-- Modelled from the spec: processing of the input list, left to right,
skipping duplicate inputs (the result is a mapping).  An identifier for which
no target value is derived — in particular one matching no Gene — goes to
`not_found` instead of appearing as a key with an empty list
(spec section 4.1, result and empty semantics). -/
def translateList (st : Store) (from_id to_id : String) (organism : Option String)
    : List IdVal → List IdVal → TransResult
  | [], _ => { found := [], not_found := [] }
  | id :: rest, seen =>
    if id ∈ seen then translateList st from_id to_id organism rest seen
    else if resolve st from_id to_id organism id = [] then
      { found := (translateList st from_id to_id organism rest (id :: seen)).found,
        not_found :=
          id :: (translateList st from_id to_id organism rest (id :: seen)).not_found }
    else
      { found := (id, resolve st from_id to_id organism id) ::
          (translateList st from_id to_id organism rest (id :: seen)).found,
        not_found := (translateList st from_id to_id organism rest (id :: seen)).not_found }

/-- Modelled from the spec: `translate_genes` of genes/utils.py (not in the
sources).  Inputs: the identifier list, the source and target namespace tags,
and the optional organism filter.  An unknown namespace tag is a
configuration error surfaced immediately, with no partial mapping
(spec sections 4.1 and 7); otherwise the batch lookup result is returned. -/
def translate_genes (st : Store) (id_list : List IdVal) (from_id to_id : String)
    (organism : Option String) : Except ConfigError TransResult :=
  if validTag st from_id then
    if validTag st to_id then
      Except.ok (translateList st from_id to_id organism id_list [])
    else Except.error (ConfigError.unknownNamespace to_id)
  else Except.error (ConfigError.unknownNamespace from_id)

/-- Modelled from the spec: the state-passing view of a translation call.
The call only reads the store (spec sections 4.1 and 5), so the store is
returned unchanged alongside the result. -/
def translate_genes_run (st : Store) (id_list : List IdVal) (from_id to_id : String)
    (organism : Option String) : Except ConfigError TransResult × Store :=
  (translate_genes st id_list from_id to_id organism, st)

/-- Persistence error for CrossRefDB records: a data-integrity error for a
null name, a validation error for an empty-string name (spec sections 3
and 8; mirrored by CrossRefDBTestCase in genes/tests.py). -/
inductive SaveError where
  | integrity : SaveError
  | validation : SaveError
deriving DecidableEq, Repr

/-- Modelled from the spec: persistence of a CrossRefDB record
(genes/models.py is not in the sources).  A null name raises a
data-integrity error, an empty-string name a validation error; otherwise the
record is appended to the store. -/
def saveCrossRefDB (st : Store) (name : Option String) (url : String) :
    Except SaveError Store :=
  match name with
  | none => Except.error SaveError.integrity
  | some n =>
    if n = "" then Except.error SaveError.validation
    else Except.ok { st with crossrefdbs := st.crossrefdbs ++ [{ name := n, url := url }] }

/-- Replay of a sequence of CrossRefDB save requests against a store;
rejected requests leave the store untouched. -/
def saveAll (st : Store) : List (Option String × String) → Store
  | [] => st
  | (n, u) :: rest =>
    match saveCrossRefDB st n u with
    | Except.ok stNew => saveAll stNew rest
    | Except.error _ => saveAll st rest

/-- A store with no records. -/
def emptyStore : Store :=
  { organisms := [], genes := [], crossrefs := [], crossrefdbs := [] }

/-! The fixture of TranslateTestCase.setUp in genes/tests.py, used to validate
the modelled translator against the recorded test expectations and as the
concrete instantiation for witnesses.  The first organism is produced by a
factory in the tests; arbitrary concrete values are used here. -/

/-- Factory-created organism of the test fixture. -/
def org1 : Organism :=
  { taxonomy_id := 9606, common_name := "Human",
    scientific_name := "Homo sapiens", slug := "homo-sapiens" }

/-- Organism "Mus computurus" of the test fixture. -/
def org2 : Organism :=
  { taxonomy_id := 1234, common_name := "Computer mouse",
    scientific_name := "Mus computurus", slug := "mus-computurus" }

/-- Organism "Monitorus computurus" of the test fixture. -/
def org3 : Organism :=
  { taxonomy_id := 4321, common_name := "Computer screen",
    scientific_name := "Monitorus computurus", slug := "monitorus-computurus" }

/-- Gene g1 of the test fixture: both standard and systematic names. -/
def gene1 : Gene :=
  { pk := 1, entrezid := 1, systematic_name := some "g1",
    standard_name := some "G1", description := "asdf", organism := org1,
    aliases := "gee1 GEE1", weight := 0 }

/-- Gene g2 of the test fixture: both standard and systematic names. -/
def gene2 : Gene :=
  { pk := 2, entrezid := 2, systematic_name := some "g2",
    standard_name := some "G2", description := "asdf", organism := org1,
    aliases := "gee2 GEE2", weight := 0 }

/-- Gene g4 of the test fixture: symbol "ACDC" in organism org2. -/
def gene4 : Gene :=
  { pk := 4, entrezid := 4, systematic_name := some "acdc",
    standard_name := some "ACDC", description := "asdf", organism := org2,
    aliases := "gee4 GEE4", weight := 0 }

/-- Gene g5 of the test fixture: symbol "ACDC" in organism org3. -/
def gene5 : Gene :=
  { pk := 5, entrezid := 5, systematic_name := some "acdc",
    standard_name := some "ACDC", description := "asdf", organism := org3,
    aliases := "gee5 GEE5", weight := 0 }

/-- Gene g101 of the test fixture: standard name only. -/
def gene101 : Gene :=
  { pk := 101, entrezid := 101, systematic_name := none,
    standard_name := some "std_101", description := "", organism := org2,
    aliases := "", weight := 0 }

/-- Gene g102 of the test fixture: systematic name only. -/
def gene102 : Gene :=
  { pk := 102, entrezid := 102, systematic_name := some "sys_102",
    standard_name := none, description := "", organism := org2,
    aliases := "", weight := 0 }

/-- Gene g103 of the test fixture: neither standard nor systematic name. -/
def gene103 : Gene :=
  { pk := 103, entrezid := 103, systematic_name := none,
    standard_name := none, description := "", organism := org2,
    aliases := "", weight := 0 }

/-- The full store built by TranslateTestCase.setUp. -/
def stTest : Store :=
  { organisms := [org1, org2, org3],
    genes := [gene1, gene2, gene4, gene5, gene101, gene102, gene103],
    crossrefs :=
      [{ crossrefdb := "ASDF", gene := 1, xrid := "XRID1" },
       { crossrefdb := "XRDB2", gene := 2, xrid := "XRID1" },
       { crossrefdb := "ASDF", gene := 1, xrid := "XRRID1" },
       { crossrefdb := "ASDF", gene := 2, xrid := "XRID2" }],
    crossrefdbs :=
      [{ name := "ASDF", url := "http://www.example.com" },
       { name := "XRDB2", url := "http://www.example.com/2" }] }

section ModelChecks

/-- Check of test_translate_entrez_entrez. -/
example :
    translate_genes stTest [IdVal.int 1, IdVal.int 2] "Entrez" "Entrez" none =
      Except.ok { found := [(IdVal.int 1, [IdVal.int 1]), (IdVal.int 2, [IdVal.int 2])],
                  not_found := [] } := by decide

/-- Check of test_translate_entrez_entrez_missing. -/
example :
    translate_genes stTest [IdVal.int 1, IdVal.int 2, IdVal.int 3] "Entrez" "Entrez" none =
      Except.ok { found := [(IdVal.int 1, [IdVal.int 1]), (IdVal.int 2, [IdVal.int 2])],
                  not_found := [IdVal.int 3] } := by decide

/-- Check of test_translate_entrez_xrdb. -/
example :
    translate_genes stTest [IdVal.int 1, IdVal.int 2] "Entrez" "ASDF" none =
      Except.ok { found := [(IdVal.int 1, [IdVal.str "XRID1", IdVal.str "XRRID1"]),
                            (IdVal.int 2, [IdVal.str "XRID2"])],
                  not_found := [] } := by decide

/-- Check of test_translate_xrdb_entrez. -/
example :
    translate_genes stTest [IdVal.str "XRID1", IdVal.str "XRRID1", IdVal.str "XRID2"]
        "ASDF" "Entrez" none =
      Except.ok { found := [(IdVal.str "XRID1", [IdVal.int 1]),
                            (IdVal.str "XRRID1", [IdVal.int 1]),
                            (IdVal.str "XRID2", [IdVal.int 2])],
                  not_found := [] } := by decide

/-- Check of test_translate_symbol_entrez_diff_organisms. -/
example :
    translate_genes stTest [IdVal.str "ACDC"] "Symbol" "Entrez" (some "Mus computurus") =
      Except.ok { found := [(IdVal.str "ACDC", [IdVal.int 4])], not_found := [] } := by decide

/-- Check of test_translate_symbol_entrez (gene with neither name). -/
example :
    translate_genes stTest [IdVal.str ""] "Symbol" "Entrez" (some "Mus computurus") =
      Except.ok { found := [(IdVal.str "", [IdVal.int 103])], not_found := [] } := by decide

/-- Check of test_translate_entrez_symbol. -/
example :
    translate_genes stTest [IdVal.int 101, IdVal.int 102, IdVal.int 103]
        "Entrez" "Symbol" (some "Mus computurus") =
      Except.ok { found := [(IdVal.int 101, [IdVal.str "std_101"]),
                            (IdVal.int 102, [IdVal.str "sys_102"]),
                            (IdVal.int 103, [IdVal.str ""])],
                  not_found := [] } := by decide

end ModelChecks

/-! Characterisation lemmas for the translator. -/

/-- The built-in tags are valid in every store. -/
theorem validTag_of_mem_builtin (st : Store) {t : String} (h : t ∈ builtinTags) :
    validTag st t = true := by
  simp [validTag]
  exact Or.inl h

/-- A registered CrossRefDB name is a valid tag. -/
theorem validTag_of_crossrefdb (st : Store) {t : String}
    (h : ∃ db ∈ st.crossrefdbs, db.name = t) : validTag st t = true := by
  simp [validTag]
  rcases h with ⟨db, hdb, hname⟩
  exact Or.inr ⟨db, hdb, hname⟩

/-- With two valid tags, translation succeeds with the batch-lookup result. -/
theorem translate_genes_ok (st : Store) (ids : List IdVal) (fi ti : String)
    (o : Option String) (hf : validTag st fi = true) (ht : validTag st ti = true) :
    translate_genes st ids fi ti o =
      Except.ok (translateList st fi ti o ids []) := by
  simp [translate_genes, hf, ht]

/-- Membership in the resolved value list of one identifier. -/
theorem mem_resolve_iff (st : Store) (fi ti : String) (o : Option String)
    (id1 v : IdVal) :
    v ∈ resolve st fi ti o id1 ↔
      ∃ g, g ∈ st.genes ∧ orgFilter o g = true ∧ matchesFrom st fi id1 g = true ∧
        v ∈ toValues st ti g := by
  unfold resolve
  constructor
  · intro hv
    rcases List.mem_flatten.mp hv with ⟨l0, hl0, hvl0⟩
    rcases List.mem_map.mp hl0 with ⟨g, hgf, rfl⟩
    rcases List.mem_filter.mp hgf with ⟨hgm, hpred⟩
    rw [Bool.and_eq_true] at hpred
    exact ⟨g, hgm, hpred.1, hpred.2, hvl0⟩
  · rintro ⟨g, hgm, h1, h2, hv⟩
    exact List.mem_flatten.mpr
      ⟨toValues st ti g,
       List.mem_map.mpr
         ⟨g, List.mem_filter.mpr ⟨hgm, by rw [Bool.and_eq_true]; exact ⟨h1, h2⟩⟩, rfl⟩,
       hv⟩

/-- Every value resolved for an identifier from Entrez with an Entrez target
is that identifier itself. -/
theorem matchesFrom_Entrez (st : Store) (n : Nat) (g : Gene) :
    matchesFrom st "Entrez" (IdVal.int n) g = (g.entrezid == n) := rfl

/-- Unfolding of the Symbol source match. -/
theorem matchesFrom_Symbol (st : Store) (s : String) (g : Gene) :
    matchesFrom st "Symbol" (IdVal.str s) g = (g.symbol == s) := rfl

/-- Unfolding of the Entrez target derivation. -/
theorem toValues_Entrez (st : Store) (g : Gene) :
    toValues st "Entrez" g = [IdVal.int g.entrezid] := rfl

/-- Unfolding of the Symbol target derivation. -/
theorem toValues_Symbol (st : Store) (g : Gene) :
    toValues st "Symbol" g = [IdVal.str g.symbol] := rfl

/-- Unfolding of the organism filter for a given scientific name. -/
theorem orgFilter_some (o : String) (g : Gene) :
    orgFilter (some o) g = true ↔ g.organism.scientific_name = o := by
  simp [orgFilter]

/-- Source matching under a tag that is not built in is cross-reference
lookup in the namespace of that name. -/
theorem matchesFrom_xrdb (st : Store) {fi : String} (h : fi ∉ builtinTags)
    (x : String) (g : Gene) :
    matchesFrom st fi (IdVal.str x) g = true ↔
      ∃ r0 ∈ st.crossrefs, r0.crossrefdb = fi ∧ r0.gene = g.pk ∧ r0.xrid = x := by
  simp only [builtinTags, List.mem_cons, List.not_mem_nil, or_false] at h
  push_neg at h
  obtain ⟨h1, h2, h3, h4⟩ := h
  simp [matchesFrom, h1, h2, h3, h4, List.any_eq_true, Bool.and_eq_true, and_assoc]

/-- Target derivation under a tag that is not built in lists the xrid values
of the gene in the namespace of that name. -/
theorem mem_toValues_xrdb (st : Store) {ti : String} (h : ti ∉ builtinTags)
    (g : Gene) (v : IdVal) :
    v ∈ toValues st ti g ↔
      ∃ r0 ∈ st.crossrefs, r0.crossrefdb = ti ∧ r0.gene = g.pk ∧
        v = IdVal.str r0.xrid := by
  simp only [builtinTags, List.mem_cons, List.not_mem_nil, or_false] at h
  push_neg at h
  obtain ⟨h1, h2, h3, h4⟩ := h
  unfold toValues
  rw [if_neg h1, if_neg h2, if_neg h3, if_neg h4]
  constructor
  · intro hv
    rcases List.mem_map.mp hv with ⟨r0, hr0f, rfl⟩
    rcases List.mem_filter.mp hr0f with ⟨hr0m, hpred⟩
    rw [Bool.and_eq_true] at hpred
    exact ⟨r0, hr0m, eq_of_beq hpred.1, eq_of_beq hpred.2, rfl⟩
  · rintro ⟨r0, hr0m, hdb, hgpk, rfl⟩
    exact List.mem_map.mpr
      ⟨r0, List.mem_filter.mpr
        ⟨hr0m, by rw [Bool.and_eq_true]; exact ⟨beq_iff_eq.mpr hdb, beq_iff_eq.mpr hgpk⟩⟩,
       rfl⟩

/-- An identifier lands in `not_found` exactly when it is a fresh input for
which no target value is derived. -/
theorem mem_translateList_not_found (st : Store) (fi ti : String) (o : Option String)
    (ids : List IdVal) (seen : List IdVal) (id1 : IdVal) :
    id1 ∈ (translateList st fi ti o ids seen).not_found ↔
      id1 ∈ ids ∧ id1 ∉ seen ∧ resolve st fi ti o id1 = [] := by
  induction ids generalizing seen with
  | nil => simp [translateList]
  | cons id0 rest ih =>
    by_cases hseen : id0 ∈ seen
    · rw [translateList, if_pos hseen, ih]
      constructor
      · rintro ⟨hm, hs, hr⟩
        exact ⟨List.mem_cons_of_mem _ hm, hs, hr⟩
      · rintro ⟨hm, hs, hr⟩
        rcases List.mem_cons.mp hm with heq | hm2
        · exact absurd (by rw [heq]; exact hseen) hs
        · exact ⟨hm2, hs, hr⟩
    · rw [translateList, if_neg hseen]
      by_cases hres : resolve st fi ti o id0 = []
      · rw [if_pos hres]
        dsimp only
        rw [List.mem_cons, ih]
        constructor
        · rintro (heq | ⟨hm, hs, hr⟩)
          · subst heq
            exact ⟨List.mem_cons_self _ _, hseen, hres⟩
          · exact ⟨List.mem_cons_of_mem _ hm,
              fun h => hs (List.mem_cons_of_mem _ h), hr⟩
        · rintro ⟨hm, hs, hr⟩
          by_cases heq : id1 = id0
          · exact Or.inl heq
          · rcases List.mem_cons.mp hm with h | h
            · exact absurd h heq
            · exact Or.inr ⟨h, fun hmem => (List.mem_cons.mp hmem).elim heq hs, hr⟩
      · rw [if_neg hres]
        dsimp only
        rw [ih]
        constructor
        · rintro ⟨hm, hs, hr⟩
          exact ⟨List.mem_cons_of_mem _ hm,
            fun h => hs (List.mem_cons_of_mem _ h), hr⟩
        · rintro ⟨hm, hs, hr⟩
          by_cases heq : id1 = id0
          · subst heq
            exact absurd hr hres
          · rcases List.mem_cons.mp hm with h | h
            · exact absurd h heq
            · exact ⟨h, fun hmem => (List.mem_cons.mp hmem).elim heq hs, hr⟩

/-- A key of the result mapping is exactly a fresh input together with its
non-empty resolved value list. -/
theorem mem_translateList_found (st : Store) (fi ti : String) (o : Option String)
    (ids : List IdVal) (seen : List IdVal) (id1 : IdVal) (l : List IdVal) :
    (id1, l) ∈ (translateList st fi ti o ids seen).found ↔
      id1 ∈ ids ∧ id1 ∉ seen ∧ l = resolve st fi ti o id1 ∧
        resolve st fi ti o id1 ≠ [] := by
  induction ids generalizing seen with
  | nil => simp [translateList]
  | cons id0 rest ih =>
    by_cases hseen : id0 ∈ seen
    · rw [translateList, if_pos hseen, ih]
      constructor
      · rintro ⟨hm, hs, hl, hr⟩
        exact ⟨List.mem_cons_of_mem _ hm, hs, hl, hr⟩
      · rintro ⟨hm, hs, hl, hr⟩
        rcases List.mem_cons.mp hm with heq | hm2
        · exact absurd (by rw [heq]; exact hseen) hs
        · exact ⟨hm2, hs, hl, hr⟩
    · rw [translateList, if_neg hseen]
      by_cases hres : resolve st fi ti o id0 = []
      · rw [if_pos hres]
        dsimp only
        rw [ih]
        constructor
        · rintro ⟨hm, hs, hl, hr⟩
          exact ⟨List.mem_cons_of_mem _ hm,
            fun h => hs (List.mem_cons_of_mem _ h), hl, hr⟩
        · rintro ⟨hm, hs, hl, hr⟩
          by_cases heq : id1 = id0
          · subst heq
            exact absurd hres hr
          · rcases List.mem_cons.mp hm with h | h
            · exact absurd h heq
            · exact ⟨h, fun hmem => (List.mem_cons.mp hmem).elim heq hs, hl, hr⟩
      · rw [if_neg hres]
        dsimp only
        rw [List.mem_cons, ih, Prod.mk.injEq]
        constructor
        · rintro (⟨heq, hl⟩ | ⟨hm, hs, hl, hr⟩)
          · subst heq
            exact ⟨List.mem_cons_self _ _, hseen, hl, hres⟩
          · exact ⟨List.mem_cons_of_mem _ hm,
              fun h => hs (List.mem_cons_of_mem _ h), hl, hr⟩
        · rintro ⟨hm, hs, hl, hr⟩
          by_cases heq : id1 = id0
          · subst heq
            exact Or.inl ⟨rfl, hl⟩
          · rcases List.mem_cons.mp hm with h | h
            · exact absurd h heq
            · exact Or.inr ⟨h, fun hmem => (List.mem_cons.mp hmem).elim heq hs, hl, hr⟩

/-! Claims C1 and C2. -/

/-- A store holding a gene but no cross-references at all, with the namespace
"ASDF" registered: used to exercise translation into an empty cross-reference
namespace. -/
def storeNoXref : Store :=
  { organisms := [org1],
    genes := [gene1],
    crossrefs := [],
    crossrefdbs := [{ name := "ASDF", url := "http://www.example.com" }] }

/-- Claim C1, counterexample: the input identifier 1 resolves to a gene under
from_id Entrez (gene1 matches), yet with target namespace "ASDF" — under
which the gene has no cross-reference — the identifier does not get a
non-empty value list: it is placed in `not_found`, so `not_found` is not
exactly the inputs that matched no Gene. -/
theorem claim_C1_counterexample :
    gene1 ∈ storeNoXref.genes ∧
    matchesFrom storeNoXref "Entrez" (IdVal.int 1) gene1 = true ∧
    translate_genes storeNoXref [IdVal.int 1] "Entrez" "ASDF" none =
      Except.ok { found := [], not_found := [IdVal.int 1] } := by decide

/-- Claim C1 (amended): in every translation with valid tags, every key of
the result maps to a non-empty list; an identifier is in `not_found` exactly
when it is an input for which no target value is derived — in particular
every input matching no Gene — and every input deriving at least one target
value is keyed with its full resolved list. -/
theorem claim_C1 (st : Store) (ids : List IdVal) (fi ti : String) (o : Option String)
    (hf : validTag st fi = true) (ht : validTag st ti = true) :
    ∃ r, translate_genes st ids fi ti o = Except.ok r ∧
      (∀ id1 l, (id1, l) ∈ r.found → l ≠ []) ∧
      (∀ id1, id1 ∈ r.not_found ↔ id1 ∈ ids ∧ resolve st fi ti o id1 = []) ∧
      (∀ id1, id1 ∈ ids → resolve st fi ti o id1 ≠ [] →
        (id1, resolve st fi ti o id1) ∈ r.found) := by
  refine ⟨translateList st fi ti o ids [],
    translate_genes_ok st ids fi ti o hf ht, ?_, ?_, ?_⟩
  · intro id1 l hmem
    rcases (mem_translateList_found st fi ti o ids [] id1 l).mp hmem with ⟨_, _, hl, hne⟩
    rw [hl]
    exact hne
  · intro id1
    rw [mem_translateList_not_found]
    simp
  · intro id1 hm hne
    exact (mem_translateList_found st fi ti o ids [] id1 _).mpr
      ⟨hm, by simp, rfl, hne⟩

/-- Witness for claim C1 at the test fixture: Entrez to Entrez over inputs
1, 2 and the absent 3. -/
theorem claim_C1_witness :
    ∃ r, translate_genes stTest [IdVal.int 1, IdVal.int 2, IdVal.int 3]
        "Entrez" "Entrez" none = Except.ok r ∧
      (∀ id1 l, (id1, l) ∈ r.found → l ≠ []) ∧
      (∀ id1, id1 ∈ r.not_found ↔
        id1 ∈ [IdVal.int 1, IdVal.int 2, IdVal.int 3] ∧
        resolve stTest "Entrez" "Entrez" none id1 = []) ∧
      (∀ id1, id1 ∈ [IdVal.int 1, IdVal.int 2, IdVal.int 3] →
        resolve stTest "Entrez" "Entrez" none id1 ≠ [] →
        (id1, resolve stTest "Entrez" "Entrez" none id1) ∈ r.found) :=
  claim_C1 stTest [IdVal.int 1, IdVal.int 2, IdVal.int 3] "Entrez" "Entrez" none
    (by decide) (by decide)

/-- Two genes in different organisms sharing the entrez identifier 1: the
spec data model only requires the entrez identifier to be unique within an
organism. -/
def geneDupA : Gene :=
  { pk := 11, entrezid := 1, systematic_name := some "dupa",
    standard_name := some "DUPA", description := "", organism := org2,
    aliases := "", weight := 0 }

/-- Second gene carrying entrez identifier 1, in the other organism. -/
def geneDupB : Gene :=
  { pk := 12, entrezid := 1, systematic_name := some "dupb",
    standard_name := some "DUPB", description := "", organism := org3,
    aliases := "", weight := 0 }

/-- Store in which entrez identifier 1 occurs in two organisms, legal under
the spec's per-organism uniqueness of entrez identifiers. -/
def storeDupEntrez : Store :=
  { organisms := [org2, org3],
    genes := [geneDupA, geneDupB],
    crossrefs := [],
    crossrefdbs := [] }

/-- Claim C2, counterexample: in a store satisfying the spec's per-organism
uniqueness of entrez identifiers, the identifier 1 is present, yet
Entrez-to-Entrez translation maps it to [1, 1] — one copy per bearing
gene — and not to the singleton [1]. -/
theorem claim_C2_counterexample :
    (∀ g1 ∈ storeDupEntrez.genes, ∀ g2 ∈ storeDupEntrez.genes,
      g1.organism = g2.organism → g1.entrezid = g2.entrezid → g1 = g2) ∧
    (∃ g ∈ storeDupEntrez.genes, g.entrezid = 1) ∧
    translate_genes storeDupEntrez [IdVal.int 1] "Entrez" "Entrez" none =
      Except.ok { found := [(IdVal.int 1, [IdVal.int 1, IdVal.int 1])],
                  not_found := [] } ∧
    [IdVal.int 1, IdVal.int 1] ≠ [IdVal.int 1] := by decide

/-- Claim C2 (amended): for identifiers all present in the store,
Entrez-to-Entrez translation is the identity on values: every input n is
keyed to a non-empty list all of whose entries equal n (the singleton [n]
when exactly one gene bears n), `not_found` is empty, and every key comes
from the input list. -/
theorem claim_C2 (st : Store) (ns : List Nat)
    (hp : ∀ n ∈ ns, ∃ g ∈ st.genes, g.entrezid = n) :
    ∃ r, translate_genes st (ns.map IdVal.int) "Entrez" "Entrez" none =
        Except.ok r ∧
      r.not_found = [] ∧
      (∀ n, n ∈ ns →
        ∃ l, (IdVal.int n, l) ∈ r.found ∧ l ≠ [] ∧ ∀ v ∈ l, v = IdVal.int n) ∧
      (∀ p ∈ r.found, p.1 ∈ ns.map IdVal.int) := by
  have hval : ∀ n v, v ∈ resolve st "Entrez" "Entrez" none (IdVal.int n) →
      v = IdVal.int n := by
    intro n v hv
    rcases (mem_resolve_iff st "Entrez" "Entrez" none (IdVal.int n) v).mp hv with
      ⟨g, _, _, hmatch, hvv⟩
    rw [matchesFrom_Entrez] at hmatch
    have hge : g.entrezid = n := by simpa using hmatch
    rw [toValues_Entrez] at hvv
    simp only [List.mem_singleton] at hvv
    rw [hvv, hge]
  have hne : ∀ n ∈ ns, resolve st "Entrez" "Entrez" none (IdVal.int n) ≠ [] := by
    intro n hn
    rcases hp n hn with ⟨g, hg, hge⟩
    have hv : IdVal.int n ∈ resolve st "Entrez" "Entrez" none (IdVal.int n) :=
      (mem_resolve_iff st "Entrez" "Entrez" none (IdVal.int n) (IdVal.int n)).mpr
        ⟨g, hg, rfl, by rw [matchesFrom_Entrez]; simp [hge],
         by rw [toValues_Entrez]; simp [hge]⟩
    exact List.ne_nil_of_mem hv
  refine ⟨translateList st "Entrez" "Entrez" none (ns.map IdVal.int) [],
    translate_genes_ok st (ns.map IdVal.int) "Entrez" "Entrez" none
      (validTag_of_mem_builtin st (by simp [builtinTags]))
      (validTag_of_mem_builtin st (by simp [builtinTags])), ?_, ?_, ?_⟩
  · rw [List.eq_nil_iff_forall_not_mem]
    intro id1 hmem
    rw [mem_translateList_not_found] at hmem
    rcases hmem with ⟨hin, _, hres⟩
    rcases List.mem_map.mp hin with ⟨n, hn, rfl⟩
    exact hne n hn hres
  · intro n hn
    refine ⟨resolve st "Entrez" "Entrez" none (IdVal.int n), ?_, hne n hn, hval n⟩
    exact (mem_translateList_found st "Entrez" "Entrez" none (ns.map IdVal.int) []
      (IdVal.int n) _).mpr ⟨List.mem_map.mpr ⟨n, hn, rfl⟩, by simp, rfl, hne n hn⟩
  · rintro ⟨id1, l⟩ hmem
    rcases (mem_translateList_found st "Entrez" "Entrez" none (ns.map IdVal.int) []
      id1 l).mp hmem with ⟨hin, _, _, _⟩
    exact hin

/-- Witness for claim C2 at the test fixture: Entrez identifiers 1 and 2 are
both present. -/
theorem claim_C2_witness :
    (∀ n ∈ [1, 2], ∃ g ∈ stTest.genes, g.entrezid = n) ∧
    (∃ r, translate_genes stTest ([1, 2].map IdVal.int) "Entrez" "Entrez" none =
        Except.ok r ∧
      r.not_found = [] ∧
      (∀ n, n ∈ [1, 2] →
        ∃ l, (IdVal.int n, l) ∈ r.found ∧ l ≠ [] ∧ ∀ v ∈ l, v = IdVal.int n) ∧
      (∀ p ∈ r.found, p.1 ∈ [1, 2].map IdVal.int)) :=
  ⟨by decide, claim_C2 stTest [1, 2] (by decide)⟩

/-! Claims C3, C4 and C5. -/

/-- The empty string is blank. -/
theorem isBlank_empty : isBlank "" = true := rfl

/-- Claim C3: the symbol of a gene is the standard name when present and
non-blank, else the systematic name (as in prepare_name_length of
genes/search_indexes.py); a gene with neither name has the empty string as
symbol, translates to Symbol as the empty string rather than being omitted,
and looking up the empty-string symbol within its organism resolves to its
entrez identifier. -/
theorem claim_C3 (st : Store) (g : Gene) (hg : g ∈ st.genes)
    (hstd : g.standard_name = none) (hsys : g.systematic_name = none) :
    (∀ h0 : Gene, ∀ s, h0.standard_name = some s → isBlank s = false →
      h0.symbol = s) ∧
    (∀ h0 : Gene, ∀ y, h0.systematic_name = some y →
      (h0.standard_name = none ∨ isBlank (h0.standard_name.getD "") = true) →
      h0.symbol = y) ∧
    (∀ h0 : Gene, isBlank (h0.standard_name.getD "") = false ∨
        h0.systematic_name ≠ none →
      prepare_name_length h0 = some h0.symbol.length) ∧
    g.symbol = "" ∧
    (∃ r, translate_genes st [IdVal.int g.entrezid] "Entrez" "Symbol"
        (some g.organism.scientific_name) = Except.ok r ∧
      ∃ l, (IdVal.int g.entrezid, l) ∈ r.found ∧ IdVal.str "" ∈ l) ∧
    (∃ r, translate_genes st [IdVal.str ""] "Symbol" "Entrez"
        (some g.organism.scientific_name) = Except.ok r ∧
      ∃ l, (IdVal.str "", l) ∈ r.found ∧ IdVal.int g.entrezid ∈ l) := by
  have hsym : g.symbol = "" := by
    simp [Gene.symbol, hstd, hsys, isBlank_empty]
  refine ⟨?_, ?_, ?_, hsym, ?_, ?_⟩
  · intro h0 s hs hb
    simp [Gene.symbol, hs, hb]
  · intro h0 y hy hcase
    rcases hcase with hn | hb
    · simp [Gene.symbol, hn, hy, isBlank_empty]
    · simp [Gene.symbol, hb, hy]
  · intro h0 hc
    rcases hc with hb | hy
    · cases hstd0 : h0.standard_name with
      | none => rw [hstd0] at hb; simp [isBlank_empty] at hb
      | some s =>
        rw [hstd0] at hb
        simp only [Option.getD_some] at hb
        simp [prepare_name_length, Gene.symbol, hstd0, hb]
    · cases hsys0 : h0.systematic_name with
      | none => exact absurd hsys0 hy
      | some y =>
        cases hstd0 : h0.standard_name with
        | none =>
          simp [prepare_name_length, Gene.symbol, hstd0, hsys0, isBlank_empty]
        | some s =>
          by_cases hb : isBlank s = true
          · simp [prepare_name_length, Gene.symbol, hstd0, hsys0, hb]
          · simp only [Bool.not_eq_true] at hb
            simp [prepare_name_length, Gene.symbol, hstd0, hsys0, hb]
  · refine ⟨translateList st "Entrez" "Symbol" (some g.organism.scientific_name)
      [IdVal.int g.entrezid] [],
      translate_genes_ok st [IdVal.int g.entrezid] "Entrez" "Symbol"
        (some g.organism.scientific_name)
        (validTag_of_mem_builtin st (by simp [builtinTags]))
        (validTag_of_mem_builtin st (by simp [builtinTags])), ?_⟩
    have hmem : IdVal.str "" ∈
        resolve st "Entrez" "Symbol" (some g.organism.scientific_name)
          (IdVal.int g.entrezid) :=
      (mem_resolve_iff st "Entrez" "Symbol" (some g.organism.scientific_name)
        (IdVal.int g.entrezid) (IdVal.str "")).mpr
        ⟨g, hg, by simp [orgFilter], by rw [matchesFrom_Entrez]; simp,
         by rw [toValues_Symbol]; simp [hsym]⟩
    refine ⟨resolve st "Entrez" "Symbol" (some g.organism.scientific_name)
      (IdVal.int g.entrezid), ?_, hmem⟩
    exact (mem_translateList_found st "Entrez" "Symbol"
      (some g.organism.scientific_name) [IdVal.int g.entrezid] []
      (IdVal.int g.entrezid) _).mpr
      ⟨by simp, by simp, rfl, List.ne_nil_of_mem hmem⟩
  · refine ⟨translateList st "Symbol" "Entrez" (some g.organism.scientific_name)
      [IdVal.str ""] [],
      translate_genes_ok st [IdVal.str ""] "Symbol" "Entrez"
        (some g.organism.scientific_name)
        (validTag_of_mem_builtin st (by simp [builtinTags]))
        (validTag_of_mem_builtin st (by simp [builtinTags])), ?_⟩
    have hmem : IdVal.int g.entrezid ∈
        resolve st "Symbol" "Entrez" (some g.organism.scientific_name)
          (IdVal.str "") :=
      (mem_resolve_iff st "Symbol" "Entrez" (some g.organism.scientific_name)
        (IdVal.str "") (IdVal.int g.entrezid)).mpr
        ⟨g, hg, by simp [orgFilter], by rw [matchesFrom_Symbol]; simp [hsym],
         by rw [toValues_Entrez]; simp⟩
    refine ⟨resolve st "Symbol" "Entrez" (some g.organism.scientific_name)
      (IdVal.str ""), ?_, hmem⟩
    exact (mem_translateList_found st "Symbol" "Entrez"
      (some g.organism.scientific_name) [IdVal.str ""] []
      (IdVal.str "") _).mpr
      ⟨by simp, by simp, rfl, List.ne_nil_of_mem hmem⟩

/-- Witness for claim C3 at the test fixture: gene103 has neither standard
nor systematic name. -/
theorem claim_C3_witness :
    (∀ h0 : Gene, ∀ s, h0.standard_name = some s → isBlank s = false →
      h0.symbol = s) ∧
    (∀ h0 : Gene, ∀ y, h0.systematic_name = some y →
      (h0.standard_name = none ∨ isBlank (h0.standard_name.getD "") = true) →
      h0.symbol = y) ∧
    (∀ h0 : Gene, isBlank (h0.standard_name.getD "") = false ∨
        h0.systematic_name ≠ none →
      prepare_name_length h0 = some h0.symbol.length) ∧
    gene103.symbol = "" ∧
    (∃ r, translate_genes stTest [IdVal.int gene103.entrezid] "Entrez" "Symbol"
        (some gene103.organism.scientific_name) = Except.ok r ∧
      ∃ l, (IdVal.int gene103.entrezid, l) ∈ r.found ∧ IdVal.str "" ∈ l) ∧
    (∃ r, translate_genes stTest [IdVal.str ""] "Symbol" "Entrez"
        (some gene103.organism.scientific_name) = Except.ok r ∧
      ∃ l, (IdVal.str "", l) ∈ r.found ∧ IdVal.int gene103.entrezid ∈ l) :=
  claim_C3 stTest gene103 (by decide) rfl rfl

/-- Claim C4: symbol lookup is organism-scoped: with the organism parameter
set to one organism's scientific name only that organism's gene is returned,
and with the parameter omitted the genes of both organisms are returned. -/
theorem claim_C4 (st : Store) (s A B : String) (ga gb : Gene)
    (hga : ga ∈ st.genes) (hgb : gb ∈ st.genes)
    (hsa : ga.symbol = s) (hsb : gb.symbol = s)
    (hoa : ga.organism.scientific_name = A) (hob : gb.organism.scientific_name = B)
    (hAB : A ≠ B)
    (huA : ∀ g ∈ st.genes, g.symbol = s → g.organism.scientific_name = A → g = ga)
    (huB : ∀ g ∈ st.genes, g.symbol = s → g.organism.scientific_name = B → g = gb) :
    (∃ r, translate_genes st [IdVal.str s] "Symbol" "Entrez" (some A) =
        Except.ok r ∧
      ∃ l, (IdVal.str s, l) ∈ r.found ∧ l ≠ [] ∧
        ∀ v ∈ l, v = IdVal.int ga.entrezid) ∧
    (∃ r, translate_genes st [IdVal.str s] "Symbol" "Entrez" (some B) =
        Except.ok r ∧
      ∃ l, (IdVal.str s, l) ∈ r.found ∧ l ≠ [] ∧
        ∀ v ∈ l, v = IdVal.int gb.entrezid) ∧
    (∃ r, translate_genes st [IdVal.str s] "Symbol" "Entrez" none =
        Except.ok r ∧
      ∃ l, (IdVal.str s, l) ∈ r.found ∧ IdVal.int ga.entrezid ∈ l ∧
        IdVal.int gb.entrezid ∈ l) := by
  have hb := @validTag_of_mem_builtin st "Symbol" (by simp [builtinTags])
  have he := @validTag_of_mem_builtin st "Entrez" (by simp [builtinTags])
  have perOrg : ∀ (C : String) (gc : Gene), gc ∈ st.genes → gc.symbol = s →
      gc.organism.scientific_name = C →
      (∀ g ∈ st.genes, g.symbol = s → g.organism.scientific_name = C → g = gc) →
      ∃ r, translate_genes st [IdVal.str s] "Symbol" "Entrez" (some C) =
          Except.ok r ∧
        ∃ l, (IdVal.str s, l) ∈ r.found ∧ l ≠ [] ∧
          ∀ v ∈ l, v = IdVal.int gc.entrezid := by
    intro C gc hgc hsc hoc huC
    refine ⟨translateList st "Symbol" "Entrez" (some C) [IdVal.str s] [],
      translate_genes_ok st [IdVal.str s] "Symbol" "Entrez" (some C) hb he, ?_⟩
    have hmem : IdVal.int gc.entrezid ∈
        resolve st "Symbol" "Entrez" (some C) (IdVal.str s) :=
      (mem_resolve_iff st "Symbol" "Entrez" (some C) (IdVal.str s)
        (IdVal.int gc.entrezid)).mpr
        ⟨gc, hgc, (orgFilter_some C gc).mpr hoc,
         by rw [matchesFrom_Symbol]; simp [hsc],
         by rw [toValues_Entrez]; simp⟩
    have hall : ∀ v ∈ resolve st "Symbol" "Entrez" (some C) (IdVal.str s),
        v = IdVal.int gc.entrezid := by
      intro v hv
      rcases (mem_resolve_iff st "Symbol" "Entrez" (some C) (IdVal.str s) v).mp hv
        with ⟨g, hgm, horg, hmatch, hvv⟩
      rw [matchesFrom_Symbol] at hmatch
      have hgs : g.symbol = s := eq_of_beq hmatch
      have hgo : g.organism.scientific_name = C := (orgFilter_some C g).mp horg
      have hgeq := huC g hgm hgs hgo
      subst hgeq
      rw [toValues_Entrez] at hvv
      simpa using hvv
    refine ⟨resolve st "Symbol" "Entrez" (some C) (IdVal.str s), ?_,
      List.ne_nil_of_mem hmem, hall⟩
    exact (mem_translateList_found st "Symbol" "Entrez" (some C)
      [IdVal.str s] [] (IdVal.str s) _).mpr
      ⟨by simp, by simp, rfl, List.ne_nil_of_mem hmem⟩
  refine ⟨perOrg A ga hga hsa hoa huA, perOrg B gb hgb hsb hob huB, ?_⟩
  refine ⟨translateList st "Symbol" "Entrez" none [IdVal.str s] [],
    translate_genes_ok st [IdVal.str s] "Symbol" "Entrez" none hb he, ?_⟩
  have hmema : IdVal.int ga.entrezid ∈
      resolve st "Symbol" "Entrez" none (IdVal.str s) :=
    (mem_resolve_iff st "Symbol" "Entrez" none (IdVal.str s)
      (IdVal.int ga.entrezid)).mpr
      ⟨ga, hga, rfl, by rw [matchesFrom_Symbol]; simp [hsa],
       by rw [toValues_Entrez]; simp⟩
  have hmemb : IdVal.int gb.entrezid ∈
      resolve st "Symbol" "Entrez" none (IdVal.str s) :=
    (mem_resolve_iff st "Symbol" "Entrez" none (IdVal.str s)
      (IdVal.int gb.entrezid)).mpr
      ⟨gb, hgb, rfl, by rw [matchesFrom_Symbol]; simp [hsb],
       by rw [toValues_Entrez]; simp⟩
  refine ⟨resolve st "Symbol" "Entrez" none (IdVal.str s), ?_, hmema, hmemb⟩
  exact (mem_translateList_found st "Symbol" "Entrez" none
    [IdVal.str s] [] (IdVal.str s) _).mpr
    ⟨by simp, by simp, rfl, List.ne_nil_of_mem hmema⟩

/-- Witness for claim C4 at the test fixture: symbol "ACDC" in organisms
"Mus computurus" (gene4) and "Monitorus computurus" (gene5). -/
theorem claim_C4_witness :
    (∃ r, translate_genes stTest [IdVal.str "ACDC"] "Symbol" "Entrez"
        (some "Mus computurus") = Except.ok r ∧
      ∃ l, (IdVal.str "ACDC", l) ∈ r.found ∧ l ≠ [] ∧
        ∀ v ∈ l, v = IdVal.int gene4.entrezid) ∧
    (∃ r, translate_genes stTest [IdVal.str "ACDC"] "Symbol" "Entrez"
        (some "Monitorus computurus") = Except.ok r ∧
      ∃ l, (IdVal.str "ACDC", l) ∈ r.found ∧ l ≠ [] ∧
        ∀ v ∈ l, v = IdVal.int gene5.entrezid) ∧
    (∃ r, translate_genes stTest [IdVal.str "ACDC"] "Symbol" "Entrez" none =
        Except.ok r ∧
      ∃ l, (IdVal.str "ACDC", l) ∈ r.found ∧ IdVal.int gene4.entrezid ∈ l ∧
        IdVal.int gene5.entrezid ∈ l) :=
  claim_C4 stTest "ACDC" "Mus computurus" "Monitorus computurus" gene4 gene5
    (by decide) (by decide) (by decide) (by decide) rfl rfl (by decide)
    (by decide) (by decide)

/-- Claim C5: translation into a cross-reference namespace preserves
multiplicity: a gene holding two distinct xrid values under the target
CrossRefDB maps its identifier to a list containing both of them. -/
theorem claim_C5 (st : Store) (g : Gene) (r1 r2 : CrossRef) (D : String)
    (hg : g ∈ st.genes) (h1 : r1 ∈ st.crossrefs) (h2 : r2 ∈ st.crossrefs)
    (hd1 : r1.crossrefdb = D) (hd2 : r2.crossrefdb = D)
    (hg1 : r1.gene = g.pk) (hg2 : r2.gene = g.pk)
    (hx : r1.xrid ≠ r2.xrid)
    (hreg : validTag st D = true) (hnb : D ∉ builtinTags) :
    ∃ r, translate_genes st [IdVal.int g.entrezid] "Entrez" D none =
        Except.ok r ∧
      ∃ l, (IdVal.int g.entrezid, l) ∈ r.found ∧
        IdVal.str r1.xrid ∈ l ∧ IdVal.str r2.xrid ∈ l := by
  refine ⟨translateList st "Entrez" D none [IdVal.int g.entrezid] [],
    translate_genes_ok st [IdVal.int g.entrezid] "Entrez" D none
      (validTag_of_mem_builtin st (by simp [builtinTags])) hreg, ?_⟩
  have hmem1 : IdVal.str r1.xrid ∈
      resolve st "Entrez" D none (IdVal.int g.entrezid) :=
    (mem_resolve_iff st "Entrez" D none (IdVal.int g.entrezid)
      (IdVal.str r1.xrid)).mpr
      ⟨g, hg, rfl, by rw [matchesFrom_Entrez]; simp,
       (mem_toValues_xrdb st hnb g (IdVal.str r1.xrid)).mpr ⟨r1, h1, hd1, hg1, rfl⟩⟩
  have hmem2 : IdVal.str r2.xrid ∈
      resolve st "Entrez" D none (IdVal.int g.entrezid) :=
    (mem_resolve_iff st "Entrez" D none (IdVal.int g.entrezid)
      (IdVal.str r2.xrid)).mpr
      ⟨g, hg, rfl, by rw [matchesFrom_Entrez]; simp,
       (mem_toValues_xrdb st hnb g (IdVal.str r2.xrid)).mpr ⟨r2, h2, hd2, hg2, rfl⟩⟩
  refine ⟨resolve st "Entrez" D none (IdVal.int g.entrezid), ?_, hmem1, hmem2⟩
  exact (mem_translateList_found st "Entrez" D none
    [IdVal.int g.entrezid] [] (IdVal.int g.entrezid) _).mpr
    ⟨by simp, by simp, rfl, List.ne_nil_of_mem hmem1⟩

/-- Witness for claim C5 at the test fixture: gene1 has XRID1 and XRRID1
under the "ASDF" namespace. -/
theorem claim_C5_witness :
    ∃ r, translate_genes stTest [IdVal.int gene1.entrezid] "Entrez" "ASDF" none =
        Except.ok r ∧
      ∃ l, (IdVal.int gene1.entrezid, l) ∈ r.found ∧
        IdVal.str "XRID1" ∈ l ∧ IdVal.str "XRRID1" ∈ l :=
  claim_C5 stTest gene1
    { crossrefdb := "ASDF", gene := 1, xrid := "XRID1" }
    { crossrefdb := "ASDF", gene := 1, xrid := "XRRID1" }
    "ASDF" (by decide) (by decide) (by decide) rfl rfl rfl rfl (by decide)
    (by decide) (by decide)

/-! Claims C6 to C10. -/

/-- Claim C6: reverse cross-reference translation round trip: for a CrossRef
record of the store whose namespace is registered (and not shadowed by a
built-in tag), translating its xrid from that namespace to Entrez yields a
list containing the entrez identifier of the owning gene. -/
theorem claim_C6 (st : Store) (r0 : CrossRef) (g : Gene)
    (hr : r0 ∈ st.crossrefs) (hg : g ∈ st.genes) (hlink : r0.gene = g.pk)
    (hreg : validTag st r0.crossrefdb = true)
    (hnb : r0.crossrefdb ∉ builtinTags) :
    ∃ r, translate_genes st [IdVal.str r0.xrid] r0.crossrefdb "Entrez" none =
        Except.ok r ∧
      ∃ l, (IdVal.str r0.xrid, l) ∈ r.found ∧ IdVal.int g.entrezid ∈ l := by
  refine ⟨translateList st r0.crossrefdb "Entrez" none [IdVal.str r0.xrid] [],
    translate_genes_ok st [IdVal.str r0.xrid] r0.crossrefdb "Entrez" none hreg
      (validTag_of_mem_builtin st (by simp [builtinTags])), ?_⟩
  have hmem : IdVal.int g.entrezid ∈
      resolve st r0.crossrefdb "Entrez" none (IdVal.str r0.xrid) :=
    (mem_resolve_iff st r0.crossrefdb "Entrez" none (IdVal.str r0.xrid)
      (IdVal.int g.entrezid)).mpr
      ⟨g, hg, rfl,
       (matchesFrom_xrdb st hnb r0.xrid g).mpr ⟨r0, hr, rfl, hlink, rfl⟩,
       by rw [toValues_Entrez]; simp⟩
  refine ⟨resolve st r0.crossrefdb "Entrez" none (IdVal.str r0.xrid), ?_, hmem⟩
  exact (mem_translateList_found st r0.crossrefdb "Entrez" none
    [IdVal.str r0.xrid] [] (IdVal.str r0.xrid) _).mpr
    ⟨by simp, by simp, rfl, List.ne_nil_of_mem hmem⟩

/-- Witness for claim C6 at the test fixture: the CrossRef linking XRID1
under "ASDF" to gene1. -/
theorem claim_C6_witness :
    ∃ r, translate_genes stTest
        [IdVal.str (CrossRef.mk "ASDF" 1 "XRID1").xrid]
        (CrossRef.mk "ASDF" 1 "XRID1").crossrefdb "Entrez" none =
        Except.ok r ∧
      ∃ l, (IdVal.str (CrossRef.mk "ASDF" 1 "XRID1").xrid, l) ∈ r.found ∧
        IdVal.int gene1.entrezid ∈ l :=
  claim_C6 stTest (CrossRef.mk "ASDF" 1 "XRID1") gene1
    (by decide) (by decide) rfl (by decide) (by decide)

/-- Claim C7: a translation call whose from_id or to_id is neither a
built-in tag nor the name of a registered CrossRefDB fails immediately with
a configuration error naming the offending tag; no partial mapping is
returned (the error result carries no mapping at all). -/
theorem claim_C7 (st : Store) (ids : List IdVal) (fi ti : String)
    (o : Option String)
    (hbad : validTag st fi = false ∨ validTag st ti = false) :
    ∃ tag, translate_genes st ids fi ti o =
        Except.error (ConfigError.unknownNamespace tag) ∧
      validTag st tag = false ∧ (tag = fi ∨ tag = ti) := by
  by_cases hf : validTag st fi = true
  · rcases hbad with hb | hb
    · rw [hf] at hb
      simp at hb
    · refine ⟨ti, ?_, hb, Or.inr rfl⟩
      simp [translate_genes, hf, hb]
  · have hf2 : validTag st fi = false := by simpa using hf
    refine ⟨fi, ?_, hf2, Or.inl rfl⟩
    simp [translate_genes, hf2]

/-- Witness for claim C7 at the test fixture: the tag "Bogus" is not a
namespace. -/
theorem claim_C7_witness :
    ∃ tag, translate_genes stTest [IdVal.int 1] "Bogus" "Entrez" none =
        Except.error (ConfigError.unknownNamespace tag) ∧
      validTag stTest tag = false ∧ (tag = "Bogus" ∨ tag = "Entrez") :=
  claim_C7 stTest [IdVal.int 1] "Bogus" "Entrez" none (Or.inl (by decide))

/-- Replaying any save requests against a store whose CrossRefDB names are
all non-empty leaves every stored name non-empty. -/
theorem saveAll_name_ne_empty (reqs : List (Option String × String)) :
    ∀ st : Store, (∀ db ∈ st.crossrefdbs, db.name ≠ "") →
      ∀ db ∈ (saveAll st reqs).crossrefdbs, db.name ≠ "" := by
  induction reqs with
  | nil =>
    intro st hinv
    simpa [saveAll] using hinv
  | cons req rest ih =>
    intro st hinv
    obtain ⟨n, u⟩ := req
    cases n with
    | none =>
      simp only [saveAll, saveCrossRefDB]
      exact ih st hinv
    | some nm =>
      by_cases hnm : nm = ""
      · subst hnm
        simp only [saveAll, saveCrossRefDB, if_pos rfl]
        exact ih st hinv
      · simp only [saveAll, saveCrossRefDB, if_neg hnm]
        apply ih
        intro db hdb
        rcases List.mem_append.mp hdb with h | h
        · exact hinv db h
        · have heq := List.mem_singleton.mp h
          rw [heq]
          exact hnm

/-- Claim C8: a CrossRefDB cannot be persisted with a null name (integrity
error) nor with an empty-string name (validation error); consequently every
store reachable by save requests from a store with only non-empty names
contains only CrossRefDB records with a present, non-empty name. -/
theorem claim_C8 (st : Store) (reqs : List (Option String × String))
    (hinv : ∀ db ∈ st.crossrefdbs, db.name ≠ "") :
    (∀ u, saveCrossRefDB st none u = Except.error SaveError.integrity) ∧
    (∀ u, saveCrossRefDB st (some "") u = Except.error SaveError.validation) ∧
    (∀ db ∈ (saveAll st reqs).crossrefdbs, db.name ≠ "") :=
  ⟨fun _ => rfl, fun _ => rfl, saveAll_name_ne_empty reqs st hinv⟩

/-- Witness for claim C8: starting from the empty store, a valid save, a
null-name save and an empty-name save. -/
theorem claim_C8_witness :
    (∀ u, saveCrossRefDB emptyStore none u =
      Except.error SaveError.integrity) ∧
    (∀ u, saveCrossRefDB emptyStore (some "") u =
      Except.error SaveError.validation) ∧
    (∀ db ∈ (saveAll emptyStore
        [(some "XRDB1", "http://x"), (none, "u"), (some "", "v")]).crossrefdbs,
      db.name ≠ "") :=
  claim_C8 emptyStore [(some "XRDB1", "http://x"), (none, "u"), (some "", "v")]
    (by decide)

/-- Claim C9: translation is read-only and deterministic: the store after a
call is the input store — no Organism, Gene, CrossRef or CrossRefDB record
is created, mutated or destroyed — and a second call on the resulting store
with the same arguments returns the same mapping. -/
theorem claim_C9 (st : Store) (ids : List IdVal) (fi ti : String)
    (o : Option String) :
    (translate_genes_run st ids fi ti o).2 = st ∧
    (translate_genes_run st ids fi ti o).2.organisms = st.organisms ∧
    (translate_genes_run st ids fi ti o).2.genes = st.genes ∧
    (translate_genes_run st ids fi ti o).2.crossrefs = st.crossrefs ∧
    (translate_genes_run st ids fi ti o).2.crossrefdbs = st.crossrefdbs ∧
    (translate_genes_run (translate_genes_run st ids fi ti o).2 ids fi ti o).1 =
      (translate_genes_run st ids fi ti o).1 :=
  ⟨rfl, rfl, rfl, rfl, rfl, rfl⟩

/-- Claim C10: cross-reference lookup is isolated per namespace: when every
cross-reference carrying xrid x in namespace D1 belongs to gene g1, the
translation of x from D1 to Entrez yields only the entrez identifier of g1,
even if the same xrid string exists under another CrossRefDB for a
different gene. -/
theorem claim_C10 (st : Store) (x D1 : String) (g1 : Gene)
    (hreg : validTag st D1 = true) (hnb : D1 ∉ builtinTags)
    (hg1 : g1 ∈ st.genes)
    (hmatch : ∃ r0 ∈ st.crossrefs,
      r0.crossrefdb = D1 ∧ r0.gene = g1.pk ∧ r0.xrid = x)
    (hiso : ∀ g ∈ st.genes,
      (∃ r0 ∈ st.crossrefs, r0.crossrefdb = D1 ∧ r0.gene = g.pk ∧ r0.xrid = x) →
      g = g1) :
    ∃ r, translate_genes st [IdVal.str x] D1 "Entrez" none = Except.ok r ∧
      ∃ l, (IdVal.str x, l) ∈ r.found ∧ l ≠ [] ∧
        ∀ v ∈ l, v = IdVal.int g1.entrezid := by
  refine ⟨translateList st D1 "Entrez" none [IdVal.str x] [],
    translate_genes_ok st [IdVal.str x] D1 "Entrez" none hreg
      (validTag_of_mem_builtin st (by simp [builtinTags])), ?_⟩
  have hmem : IdVal.int g1.entrezid ∈ resolve st D1 "Entrez" none (IdVal.str x) :=
    (mem_resolve_iff st D1 "Entrez" none (IdVal.str x)
      (IdVal.int g1.entrezid)).mpr
      ⟨g1, hg1, rfl, (matchesFrom_xrdb st hnb x g1).mpr hmatch,
       by rw [toValues_Entrez]; simp⟩
  have hall : ∀ v ∈ resolve st D1 "Entrez" none (IdVal.str x),
      v = IdVal.int g1.entrezid := by
    intro v hv
    rcases (mem_resolve_iff st D1 "Entrez" none (IdVal.str x) v).mp hv with
      ⟨g, hgm, _, hmt, hvv⟩
    have hex := (matchesFrom_xrdb st hnb x g).mp hmt
    have hgeq := hiso g hgm hex
    subst hgeq
    rw [toValues_Entrez] at hvv
    simpa using hvv
  refine ⟨resolve st D1 "Entrez" none (IdVal.str x), ?_,
    List.ne_nil_of_mem hmem, hall⟩
  exact (mem_translateList_found st D1 "Entrez" none
    [IdVal.str x] [] (IdVal.str x) _).mpr
    ⟨by simp, by simp, rfl, List.ne_nil_of_mem hmem⟩

/-- Witness for claim C10 at the test fixture: XRID1 exists under "ASDF"
(gene1) and under "XRDB2" (gene2); from "ASDF" only gene1's entrez
identifier is produced. -/
theorem claim_C10_witness :
    ∃ r, translate_genes stTest [IdVal.str "XRID1"] "ASDF" "Entrez" none =
        Except.ok r ∧
      ∃ l, (IdVal.str "XRID1", l) ∈ r.found ∧ l ≠ [] ∧
        ∀ v ∈ l, v = IdVal.int gene1.entrezid :=
  claim_C10 stTest "XRID1" "ASDF" gene1 (by decide) (by decide) (by decide)
    (by decide) (by decide)
